import Mathlib

/-!
Shallow embedding of the Grand0007/website authentication and resume-storage
core: the Express OTP router (`request-otp`, `verify-otp`, `profile`), the
JWT middleware `authenticateToken` shared by `resume.js` and `ai.js`, the
`generateOTP` helper, and the blob-name construction/parsing of the resume
upload, list, fetch and delete routes.

Modelling conventions:
* the JavaScript `Map` objects `otpStore` and `userStore` become association
  lists with `Map` get/set/delete semantics;
* `Date.now()`, `Math.random()`, `uuidv4()` and the outcome of the external
  e-mail dispatch are passed to each handler as explicit arguments;
* timestamps are natural numbers of milliseconds;
* a JWT is a record carrying its payload, its expiry and the secret it was
  signed with; `jwt.verify(t, s)` succeeds iff the secrets coincide and the
  token is unexpired;
* blob names are lists of characters, with JavaScript `split`, `join`,
  `includes` and template-literal concatenation translated directly.
-/

namespace Website

/-! ### Association-list maps with JavaScript `Map` semantics -/

/-- `Map.prototype.get`: the value stored at key `k`, if any. -/
def mapGet {α : Type} (m : List (String × α)) (k : String) : Option α :=
  match m with
  | [] => none
  | p :: rest => if p.1 = k then some p.2 else mapGet rest k

/-- `Map.prototype.set`: replace the entry at `k` in place, or append one. -/
def mapSet {α : Type} (m : List (String × α)) (k : String) (v : α) :
    List (String × α) :=
  match m with
  | [] => [(k, v)]
  | p :: rest => if p.1 = k then (k, v) :: rest else p :: mapSet rest k v

/-- `Map.prototype.delete`: remove the entry at `k`, if present. -/
def mapDelete {α : Type} (m : List (String × α)) (k : String) :
    List (String × α) :=
  m.filter (fun p => p.1 != k)

/-! ### Data model of the OTP router (src/unnamed/part_000) -/

/-- An entry of `otpStore`: `{ email, otp, expiresAt }` (line 69). -/
structure OtpRecord where
  email : String
  otp : String
  expiresAt : Nat
deriving DecidableEq, Repr

/-- An entry of `userStore`: `{ id, email, createdAt, resumes }` (line 124). -/
structure User where
  id : String
  email : String
  createdAt : String
  resumes : List String
deriving DecidableEq, Repr

/-- The two in-memory stores of part_000 (lines 11–12). -/
structure AuthState where
  otpStore : List (String × OtpRecord)
  userStore : List (String × User)
deriving DecidableEq, Repr

/-- A signed JWT: payload `{ userId, email }`, expiry, and the secret it was
signed with.  `jwt.verify` checks the signature by recomputing it from the
secret, which this model renders as comparing the stored secret. -/
structure Token where
  userId : String
  email : String
  exp : Nat
  secret : String
deriving DecidableEq, Repr

/-- `jwt.sign({ userId, email }, secret, { expiresIn })` (line 134). -/
def jwtSign (userId email secret : String) (expAt : Nat) : Token :=
  ⟨userId, email, expAt, secret⟩

/-- `jwt.verify(token, secret)` succeeds: signature matches and unexpired. -/
def jwtVerifyOk (t : Token) (secret : String) (now : Nat) : Bool :=
  t.secret == secret && now < t.exp

/-- What an authenticated request presents in its `Authorization` header:
nothing, a string that is not a well-formed signed token, or a token. -/
inductive Credential where
  | missing
  | malformed (raw : String)
  | token (t : Token)
deriving DecidableEq, Repr

/-- `normalizeEmail()` of express-validator, applied by the `request-otp`
validation chain (line 56); its default options lowercase the address
(`all_lowercase: true`). -/
def normalizeEmail (s : String) : String :=
  String.mk (s.data.map Char.toLower)

/-! ### POST /request-otp (part_000 lines 55–92) -/

inductive RequestResult where
  /-- 200 `{ message: 'OTP sent successfully', otpId }` -/
  | ok (otpId : String)
  /-- 500 `{ error: 'Failed to send OTP email' }` -/
  | deliveryError
deriving DecidableEq, Repr

/-- Handler body of `POST /request-otp` after validation: stores the
`OtpRecord` under the fresh `otpId`, then dispatches the e-mail; `emailSent`
is the boolean outcome of `sendOTPEmail`.  The `email` argument is the
already-validated, normalized address produced by the validation chain. -/
def requestOtp (st : AuthState) (email otp otpId : String) (now : Nat)
    (emailSent : Bool) : AuthState × RequestResult :=
  let st1 : AuthState :=
    { st with otpStore :=
        mapSet st.otpStore otpId ⟨email, otp, now + 10 * 60 * 1000⟩ }
  if emailSent then (st1, RequestResult.ok otpId)
  else (st1, RequestResult.deliveryError)

/-! ### POST /verify-otp (part_000 lines 95–158) -/

inductive VerifyResult where
  /-- 400 validation errors from `body('otpId').notEmpty()` /
  `body('otp').isLength({min:6,max:6}).isNumeric()` -/
  | validationError
  /-- 400 `{ error: 'Invalid OTP ID' }` -/
  | invalidOtpId
  /-- 400 `{ error: 'OTP expired' }` -/
  | expired
  /-- 400 `{ error: 'Invalid OTP' }` -/
  | invalidOtp
  /-- 200 `{ message: 'Login successful', token, user }` -/
  | success (token : Token) (user : User)
deriving DecidableEq, Repr

/-- The `isLength({min:6,max:6}).isNumeric()` check on the submitted code. -/
def isSixDigitNumeric (s : String) : Bool :=
  s.length == 6 && s.toList.all Char.isDigit

/-- Handler of `POST /verify-otp`.  `freshUserId` and `createdAt` stand for
the `uuidv4()` and `new Date().toISOString()` drawn when a user is created;
`secret` is `process.env.JWT_SECRET`. -/
def verifyOtp (st : AuthState) (otpId otp : String) (now : Nat)
    (freshUserId createdAt secret : String) : AuthState × VerifyResult :=
  if otpId = "" then (st, VerifyResult.validationError)
  else if !isSixDigitNumeric otp then (st, VerifyResult.validationError)
  else
    match mapGet st.otpStore otpId with
    | none => (st, VerifyResult.invalidOtpId)
    | some storedData =>
      if storedData.expiresAt < now then
        ({ st with otpStore := mapDelete st.otpStore otpId },
         VerifyResult.expired)
      else if storedData.otp ≠ otp then (st, VerifyResult.invalidOtp)
      else
        let user : User :=
          match mapGet st.userStore storedData.email with
          | some u => u
          | none => ⟨freshUserId, storedData.email, createdAt, []⟩
        let st1 : AuthState :=
          match mapGet st.userStore storedData.email with
          | some _ => st
          | none =>
            { st with userStore := mapSet st.userStore storedData.email user }
        let token := jwtSign user.id user.email secret
          (now + 7 * 24 * 60 * 60 * 1000)
        ({ st1 with otpStore := mapDelete st1.otpStore otpId },
         VerifyResult.success token user)

/-! ### authenticateToken middleware (resume.js 34–48, ai.js 22–36) -/

inductive AuthResult where
  /-- `req.user = decoded; next()` — the request proceeds with the decoded
  `{ userId, email }` payload. -/
  | ok (userId email : String)
  /-- an error response `res.status(status).json({ error: message })` -/
  | err (status : Nat) (message : String)
deriving DecidableEq, Repr

/-- The JWT middleware shared verbatim by `resume.js` and `ai.js`: 401 when
the header carries no token, otherwise `jwt.verify`; on any verify failure
(malformed string, wrong signature, expired) a uniform 403. -/
def authenticateToken (cred : Credential) (secret : String) (now : Nat) :
    AuthResult :=
  match cred with
  | Credential.missing => AuthResult.err 401 "Access token required"
  | Credential.malformed _ => AuthResult.err 403 "Invalid token"
  | Credential.token t =>
    if jwtVerifyOk t secret now then AuthResult.ok t.userId t.email
    else AuthResult.err 403 "Invalid token"

/-! ### GET /profile (part_000 lines 161–187) -/

inductive ProfileResult where
  /-- 200 `{ user: { id, email, createdAt } }` -/
  | ok (user : User)
  /-- an error response `res.status(status).json({ error: message })` -/
  | err (status : Nat) (message : String)
deriving DecidableEq, Repr

/-- Handler of `GET /profile`: verifies the bearer token inline (401 on any
`jwt.verify` throw, 401 'No token provided' when absent) and then looks the
user up in `userStore` by the token's email, answering 404 when absent. -/
def profile (st : AuthState) (cred : Credential) (secret : String)
    (now : Nat) : ProfileResult :=
  match cred with
  | Credential.missing => ProfileResult.err 401 "No token provided"
  | Credential.malformed _ => ProfileResult.err 401 "Invalid token"
  | Credential.token t =>
    if jwtVerifyOk t secret now then
      match mapGet st.userStore t.email with
      | none => ProfileResult.err 404 "User not found"
      | some u => ProfileResult.ok u
    else ProfileResult.err 401 "Invalid token"

/-! ### generateOTP (part_000 lines 24–26) -/

/-- The number `Math.floor(100000 + Math.random() * 900000)`, as a function
of the value `r ∈ [0, 1)` returned by `Math.random()`. -/
def generateOTPNum (r : ℚ) : ℤ :=
  ⌊(100000 : ℚ) + r * 900000⌋

/-- `generateOTP = () => Math.floor(100000 + Math.random() * 900000).toString()`. -/
def generateOTP (r : ℚ) : String :=
  toString (generateOTPNum r)

/-! ### Operation sequences over the two stores -/

/-- One client-visible operation against the OTP router, with the
nondeterministic inputs (clock, random code, fresh ids, dispatch outcome)
recorded in the operation. -/
inductive Op where
  | request (rawEmail otp otpId : String) (now : Nat) (emailSent : Bool)
  | verify (otpId otp : String) (now : Nat)
      (freshUserId createdAt secret : String)

/-- `POST /request-otp` including its validation chain: the handler runs on
the normalized address. -/
def requestOtpRoute (st : AuthState) (rawEmail otp otpId : String)
    (now : Nat) (emailSent : Bool) : AuthState × RequestResult :=
  requestOtp st (normalizeEmail rawEmail) otp otpId now emailSent

/-- The state reached after one operation. -/
def step (st : AuthState) : Op → AuthState
  | Op.request e o i n s => (requestOtpRoute st e o i n s).1
  | Op.verify i o n f c sec => (verifyOtp st i o n f c sec).1

/-- The state reached after a sequence of operations. -/
def run (st : AuthState) (ops : List Op) : AuthState :=
  ops.foldl step st

/-- The empty initial state: `new Map()` twice (part_000 lines 11–12). -/
def initialState : AuthState :=
  ⟨[], []⟩

/-! ### Blob names of the resume routes (resume.js) -/

/-- JavaScript `s.split(sep)` for a one-character separator, on strings
rendered as character lists. -/
def splitChar (sep : Char) : List Char → List (List Char)
  | [] => [[]]
  | c :: rest =>
    match splitChar sep rest with
    | [] => [[c]]
    | h :: t => if c = sep then [] :: h :: t else (c :: h) :: t

/-- JavaScript `parts.join(sep)` for a one-character separator. -/
def joinChar (sep : Char) : List (List Char) → List Char
  | [] => []
  | [x] => x
  | x :: y :: t => x ++ sep :: joinChar sep (y :: t)

/-- JavaScript `haystack.includes(needle)` (substring containment). -/
def strIncludes (needle : List Char) : List Char → Bool
  | [] => needle.isEmpty
  | c :: rest => needle.isPrefixOf (c :: rest) || strIncludes needle rest

/-- The blob name minted at upload:
`` `${userId}/${resumeId}_${originalname}` `` (resume.js line 80). -/
def uploadBlobName (userId resumeId originalname : List Char) : List Char :=
  userId ++ '/' :: (resumeId ++ '_' :: originalname)

/-- The `id` field computed by `GET /list`:
`blob.name.split('/')[1].split('_')[0]` (resume.js line 132). -/
def listItemId (blobName : List Char) : List Char :=
  (splitChar '_' ((splitChar '/' blobName).getD 1 [])).getD 0 []

/-- The `fileName` field computed by `GET /list`:
`blob.name.split('_').slice(1).join('_')` (resume.js line 133). -/
def listItemFileName (blobName : List Char) : List Char :=
  joinChar '_' ((splitChar '_' blobName).drop 1)

/-- The blob-selection loop shared by `GET /:resumeId` (resume.js 160–165),
`DELETE /:resumeId` (resume.js 210–215) and `getResumeContent` (ai.js):
among the blobs under the caller's `` `${userId}/` `` prefix, the first whose
full name `includes(resumeId)` as a substring. -/
def findTargetBlob (blobs : List (List Char)) (userId resumeId : List Char) :
    Option (List Char) :=
  (blobs.filter (fun n => (userId ++ ['/']).isPrefixOf n)).find?
    (fun n => strIncludes resumeId n)

/-- The keys of an association-list map are pairwise distinct (the `Map`
representation invariant). -/
def keyNodup {α : Type} (m : List (String × α)) : Prop :=
  (m.map Prod.fst).Nodup

/-! ### Map lemmas -/

@[simp] theorem mapGet_nil {α : Type} (k : String) :
    mapGet ([] : List (String × α)) k = none := rfl

@[simp] theorem mapGet_set_self {α : Type} (m : List (String × α))
    (k : String) (v : α) : mapGet (mapSet m k v) k = some v := by
  induction m with
  | nil => simp [mapGet, mapSet]
  | cons p rest ih =>
    by_cases h : p.1 = k <;> simp [mapGet, mapSet, h, ih]

theorem mapGet_set_ne {α : Type} (m : List (String × α)) (k k' : String)
    (v : α) (h : k' ≠ k) : mapGet (mapSet m k v) k' = mapGet m k' := by
  have hk : ¬ k = k' := fun hh => h hh.symm
  induction m with
  | nil => simp [mapGet, mapSet, hk]
  | cons p rest ih =>
    by_cases hp : p.1 = k
    · subst hp
      simp [mapGet, mapSet, hk]
    · simp only [mapSet, if_neg hp, mapGet]
      by_cases hq : p.1 = k' <;> simp [hq, ih]

@[simp] theorem mapGet_delete_self {α : Type} (m : List (String × α))
    (k : String) : mapGet (mapDelete m k) k = none := by
  induction m with
  | nil => simp [mapGet, mapDelete]
  | cons p rest ih =>
    by_cases h : p.1 = k
    · simpa [mapDelete, h] using ih
    · simpa [mapDelete, mapGet, h] using ih

theorem mapGet_delete_ne {α : Type} (m : List (String × α)) (k k' : String)
    (h : k' ≠ k) : mapGet (mapDelete m k) k' = mapGet m k' := by
  induction m with
  | nil => simp [mapDelete]
  | cons p rest ih =>
    by_cases hp : p.1 = k
    · subst hp
      have hk : ¬ p.1 = k' := fun hh => h hh.symm
      simpa [mapDelete, mapGet, hk] using ih
    · have hb : (p.1 != k) = true := bne_iff_ne.mpr hp
      simp only [mapDelete, List.filter, hb] at ih ⊢
      by_cases hq : p.1 = k'
      · simp [mapGet, hq]
      · simp [mapGet, hq, ih]

/-! ### Behaviour of verifyOtp on the main paths (helper lemmas) -/

/-- On a live record with the matching code, `verify-otp` succeeds and its
resulting `otpStore` is the old one with the handle deleted. -/
theorem verifyOtp_success_aux (st : AuthState) (otpId code : String)
    (rec : OtpRecord) (now : Nat) (fid cat sec : String)
    (hid : otpId ≠ "") (hotp : isSixDigitNumeric code = true)
    (hget : mapGet st.otpStore otpId = some rec)
    (hlive : ¬ rec.expiresAt < now) (hcode : rec.otp = code) :
    ∃ tok u,
      (verifyOtp st otpId code now fid cat sec).2 =
          VerifyResult.success tok u ∧
        (verifyOtp st otpId code now fid cat sec).1.otpStore =
          mapDelete st.otpStore otpId := by
  cases hu : mapGet st.userStore rec.email with
  | none =>
    refine ⟨jwtSign fid rec.email sec (now + 7 * 24 * 60 * 60 * 1000),
      ⟨fid, rec.email, cat, []⟩, ?_, ?_⟩ <;>
      simp [verifyOtp, jwtSign, hid, hotp, hget, hlive, hcode, hu]
  | some u =>
    refine ⟨jwtSign u.id u.email sec (now + 7 * 24 * 60 * 60 * 1000),
      u, ?_, ?_⟩ <;>
      simp [verifyOtp, jwtSign, hid, hotp, hget, hlive, hcode, hu]

/-- On an unknown handle, `verify-otp` answers 'Invalid OTP ID' and leaves
the state unchanged. -/
theorem verifyOtp_notFound_aux (st : AuthState) (otpId otp : String)
    (now : Nat) (fid cat sec : String)
    (hid : otpId ≠ "") (hotp : isSixDigitNumeric otp = true)
    (hget : mapGet st.otpStore otpId = none) :
    verifyOtp st otpId otp now fid cat sec = (st, VerifyResult.invalidOtpId) := by
  simp [verifyOtp, hid, hotp, hget]

/-! ### C1 — single-use OTP -/

/-- C1: from any state, `request-otp` (with successful dispatch) followed
immediately by `verify-otp` with the same handle and the correct code
succeeds, deletes the `OtpRecord`, and a second `verify-otp` with the same
handle and code fails with the invalid-class error 'Invalid OTP ID'. -/
theorem otp_single_use (st : AuthState) (email otp otpId : String)
    (now : Nat) (fid cat sec fid2 cat2 sec2 : String)
    (hid : otpId ≠ "") (hotp : isSixDigitNumeric otp = true) :
    ∃ tok u,
      (verifyOtp (requestOtp st email otp otpId now true).1
          otpId otp now fid cat sec).2 = VerifyResult.success tok u ∧
        mapGet (verifyOtp (requestOtp st email otp otpId now true).1
          otpId otp now fid cat sec).1.otpStore otpId = none ∧
        (verifyOtp (verifyOtp (requestOtp st email otp otpId now true).1
            otpId otp now fid cat sec).1 otpId otp now fid2 cat2 sec2).2 =
          VerifyResult.invalidOtpId := by
  have hget : mapGet (requestOtp st email otp otpId now true).1.otpStore otpId =
      some ⟨email, otp, now + 10 * 60 * 1000⟩ := by
    simp [requestOtp]
  obtain ⟨tok, u, hsucc, hstore⟩ :=
    verifyOtp_success_aux (requestOtp st email otp otpId now true).1 otpId otp
      ⟨email, otp, now + 10 * 60 * 1000⟩ now fid cat sec hid hotp hget
      (by simp) rfl
  refine ⟨tok, u, hsucc, ?_, ?_⟩
  · rw [hstore]
    exact mapGet_delete_self _ _
  · have h2 := verifyOtp_notFound_aux
      (verifyOtp (requestOtp st email otp otpId now true).1
        otpId otp now fid cat sec).1 otpId otp now fid2 cat2 sec2 hid hotp
      (by rw [hstore]; exact mapGet_delete_self _ _)
    rw [h2]

/-- C1, witnessed at a concrete request/verify/verify sequence. -/
theorem otp_single_use_witness :
    ("h1" ≠ "" ∧ isSixDigitNumeric "123456" = true) ∧
      (∃ tok u,
        (verifyOtp (requestOtp initialState "a@b.com" "123456" "h1" 0 true).1
            "h1" "123456" 0 "u1" "t1" "s").2 = VerifyResult.success tok u ∧
          mapGet (verifyOtp (requestOtp initialState "a@b.com" "123456" "h1" 0 true).1
            "h1" "123456" 0 "u1" "t1" "s").1.otpStore "h1" = none ∧
          (verifyOtp (verifyOtp (requestOtp initialState "a@b.com" "123456" "h1" 0 true).1
              "h1" "123456" 0 "u1" "t1" "s").1 "h1" "123456" 0 "u2" "t2" "s").2 =
            VerifyResult.invalidOtpId) :=
  ⟨⟨by decide, by decide⟩,
    otp_single_use initialState "a@b.com" "123456" "h1" 0 "u1" "t1" "s"
      "u2" "t2" "s" (by decide) (by decide)⟩

/-! ### C3 — expiry handling -/

/-- C3: on a record whose `expiresAt` is strictly in the past at
verification time, `verify-otp` answers 'OTP expired' whatever the submitted
code is, and deletes the record from the store as a side effect. -/
theorem verify_otp_expiry (st : AuthState) (otpId otp : String)
    (rec : OtpRecord) (now : Nat) (fid cat sec : String)
    (hid : otpId ≠ "") (hotp : isSixDigitNumeric otp = true)
    (hget : mapGet st.otpStore otpId = some rec)
    (hexp : rec.expiresAt < now) :
    verifyOtp st otpId otp now fid cat sec =
        ({ st with otpStore := mapDelete st.otpStore otpId },
          VerifyResult.expired) ∧
      mapGet (verifyOtp st otpId otp now fid cat sec).1.otpStore otpId =
        none := by
  have h1 : verifyOtp st otpId otp now fid cat sec =
      ({ st with otpStore := mapDelete st.otpStore otpId },
        VerifyResult.expired) := by
    simp [verifyOtp, hid, hotp, hget, hexp]
  refine ⟨h1, ?_⟩
  rw [h1]
  exact mapGet_delete_self _ _

/-- C3, witnessed at a record that expired at time 5, verified at time 10
with a code different from the stored one. -/
theorem verify_otp_expiry_witness :
    ("h1" ≠ "" ∧ isSixDigitNumeric "654321" = true ∧
        mapGet (AuthState.mk [("h1", OtpRecord.mk "a@b.com" "123456" 5)] []).otpStore
          "h1" = some (OtpRecord.mk "a@b.com" "123456" 5) ∧
        (OtpRecord.mk "a@b.com" "123456" 5).expiresAt < 10) ∧
      (verifyOtp (AuthState.mk [("h1", OtpRecord.mk "a@b.com" "123456" 5)] [])
          "h1" "654321" 10 "u1" "t1" "s" =
          ({ AuthState.mk [("h1", OtpRecord.mk "a@b.com" "123456" 5)] [] with
              otpStore := mapDelete [("h1", OtpRecord.mk "a@b.com" "123456" 5)] "h1" },
            VerifyResult.expired) ∧
        mapGet (verifyOtp (AuthState.mk [("h1", OtpRecord.mk "a@b.com" "123456" 5)] [])
          "h1" "654321" 10 "u1" "t1" "s").1.otpStore "h1" = none) :=
  ⟨⟨by decide, by decide, by decide, by decide⟩,
    verify_otp_expiry (AuthState.mk [("h1", OtpRecord.mk "a@b.com" "123456" 5)] [])
      "h1" "654321" (OtpRecord.mk "a@b.com" "123456" 5) 10 "u1" "t1" "s"
      (by decide) (by decide) (by decide) (by decide)⟩

/-! ### C4 — mismatch preserves the record -/

/-- C4: on a live, unexpired record, `verify-otp` with a well-formed
six-digit code different from the stored one answers 'Invalid OTP' and
leaves the whole state (in particular the `OtpRecord`) unchanged, so a
later `verify-otp` with the correct code before expiry still succeeds. -/
theorem verify_otp_mismatch_preserves (st : AuthState) (otpId otp : String)
    (rec : OtpRecord) (now now2 : Nat) (fid cat sec fid2 cat2 sec2 : String)
    (hid : otpId ≠ "") (hotp : isSixDigitNumeric otp = true)
    (hget : mapGet st.otpStore otpId = some rec)
    (hlive : ¬ rec.expiresAt < now) (hne : rec.otp ≠ otp)
    (hstored : isSixDigitNumeric rec.otp = true)
    (hlive2 : ¬ rec.expiresAt < now2) :
    verifyOtp st otpId otp now fid cat sec = (st, VerifyResult.invalidOtp) ∧
      ∃ tok u, (verifyOtp st otpId rec.otp now2 fid2 cat2 sec2).2 =
        VerifyResult.success tok u := by
  refine ⟨by simp [verifyOtp, hid, hotp, hget, hlive, hne], ?_⟩
  obtain ⟨tok, u, hsucc, _⟩ :=
    verifyOtp_success_aux st otpId rec.otp rec now2 fid2 cat2 sec2 hid hstored
      hget hlive2 rfl
  exact ⟨tok, u, hsucc⟩

/-- C4, witnessed at a live record, a mismatching code, then the real one. -/
theorem verify_otp_mismatch_preserves_witness :
    ("h1" ≠ "" ∧ isSixDigitNumeric "654321" = true ∧
        mapGet (AuthState.mk [("h1", OtpRecord.mk "a@b.com" "123456" 100)] []).otpStore
          "h1" = some (OtpRecord.mk "a@b.com" "123456" 100) ∧
        ¬ (OtpRecord.mk "a@b.com" "123456" 100).expiresAt < 7 ∧
        (OtpRecord.mk "a@b.com" "123456" 100).otp ≠ "654321" ∧
        isSixDigitNumeric (OtpRecord.mk "a@b.com" "123456" 100).otp = true ∧
        ¬ (OtpRecord.mk "a@b.com" "123456" 100).expiresAt < 8) ∧
      (verifyOtp (AuthState.mk [("h1", OtpRecord.mk "a@b.com" "123456" 100)] [])
          "h1" "654321" 7 "u1" "t1" "s" =
          (AuthState.mk [("h1", OtpRecord.mk "a@b.com" "123456" 100)] [],
            VerifyResult.invalidOtp) ∧
        ∃ tok u,
          (verifyOtp (AuthState.mk [("h1", OtpRecord.mk "a@b.com" "123456" 100)] [])
            "h1" (OtpRecord.mk "a@b.com" "123456" 100).otp 8 "u2" "t2" "s").2 =
            VerifyResult.success tok u) :=
  ⟨⟨by decide, by decide, by decide, by decide, by decide, by decide, by decide⟩,
    verify_otp_mismatch_preserves
      (AuthState.mk [("h1", OtpRecord.mk "a@b.com" "123456" 100)] [])
      "h1" "654321" (OtpRecord.mk "a@b.com" "123456" 100) 7 8
      "u1" "t1" "s" "u2" "t2" "s"
      (by decide) (by decide) (by decide) (by decide) (by decide) (by decide)
      (by decide)⟩

/-! ### C2 — delivery-failure handling in request-otp -/

/-- C2 counterexample: from the empty state, a `request-otp` call whose
e-mail dispatch fails reports the delivery error, yet the freshly stored
`OtpRecord` is still in `otpStore` — the claim that no record remains after
the failed call is false. -/
theorem request_otp_delivery_failure_cex :
    (requestOtp initialState "a@b.com" "123456" "h1" 0 false).2 =
        RequestResult.deliveryError ∧
      mapGet (requestOtp initialState "a@b.com" "123456" "h1" 0 false).1.otpStore
        "h1" = some ⟨"a@b.com", "123456", 600000⟩ := by
  constructor <;> rfl

/-- C2 amended: when the e-mail dispatch collaborator fails, `requestOtp`
reports the delivery error (500 'Failed to send OTP email'), but the stored
`OtpRecord` is not rolled back — it remains in the OTP store under the fresh
handle (until its 10-minute expiry), because the handler stores the record
before dispatching and never deletes it on failure. -/
theorem request_otp_delivery_failure (st : AuthState)
    (email otp otpId : String) (now : Nat) :
    (requestOtp st email otp otpId now false).2 = RequestResult.deliveryError ∧
      mapGet (requestOtp st email otp otpId now false).1.otpStore otpId =
        some ⟨email, otp, now + 10 * 60 * 1000⟩ := by
  refine ⟨rfl, ?_⟩
  simp [requestOtp]

/-! ### C5 — failure uniformity of session resolution -/

/-- C5 counterexample: in the `authenticateToken` middleware of `resume.js`
and `ai.js`, a missing credential is answered with 401 'Access token
required' while a malformed credential is answered with 403 'Invalid token'
— the two causes are distinguishable in both status and message, so failures
are not treated identically for every cause. -/
theorem auth_uniform_failure_cex :
    authenticateToken Credential.missing "secret" 0 =
        AuthResult.err 401 "Access token required" ∧
      authenticateToken (Credential.malformed "abc") "secret" 0 =
        AuthResult.err 403 "Invalid token" ∧
      authenticateToken Credential.missing "secret" 0 ≠
        authenticateToken (Credential.malformed "abc") "secret" 0 := by
  refine ⟨rfl, rfl, by decide⟩

/-- C5 amended: all `jwt.verify` failures — structurally malformed
credential, bad signature, expiry — are collapsed to the single uniform
response 403 'Invalid token', with no distinction leaked between them; a
missing credential, however, is distinguished as 401 'Access token
required'. -/
theorem auth_failure_modes (t : Token) (secret raw : String) (now : Nat)
    (h : t.secret ≠ secret ∨ t.exp ≤ now) :
    authenticateToken (Credential.token t) secret now =
        AuthResult.err 403 "Invalid token" ∧
      authenticateToken (Credential.malformed raw) secret now =
        AuthResult.err 403 "Invalid token" ∧
      authenticateToken Credential.missing secret now =
        AuthResult.err 401 "Access token required" := by
  have hv : jwtVerifyOk t secret now = false := by
    rcases h with h | h
    · simp [jwtVerifyOk, h]
    · simp [jwtVerifyOk, Nat.not_lt.mpr h]
  exact ⟨by simp [authenticateToken, hv], rfl, rfl⟩

/-- C5 amended, witnessed at a concrete expired token. -/
theorem auth_failure_modes_witness :
    ((Token.mk "u1" "a@b.com" 3 "s").secret ≠ "s" ∨
        (Token.mk "u1" "a@b.com" 3 "s").exp ≤ 5) ∧
      (authenticateToken (Credential.token (Token.mk "u1" "a@b.com" 3 "s"))
          "s" 5 = AuthResult.err 403 "Invalid token" ∧
        authenticateToken (Credential.malformed "zzz") "s" 5 =
          AuthResult.err 403 "Invalid token" ∧
        authenticateToken Credential.missing "s" 5 =
          AuthResult.err 401 "Access token required") :=
  ⟨Or.inr (by decide),
    auth_failure_modes (Token.mk "u1" "a@b.com" 3 "s") "s" "zzz" 5
      (Or.inr (by decide))⟩

/-! ### C6 — statelessness of session resolution -/

/-- C6 counterexample: with an empty `userStore`, a structurally valid,
correctly signed, unexpired credential is accepted by the middleware, yet
`GET /profile` re-fetches the user record by the token's email and fails
with 404 'User not found' — so on this route, resolution success does depend
on the Identity store's contents. -/
theorem stateless_session_cex :
    authenticateToken (Credential.token (Token.mk "u1" "a@b.com" 1 "s"))
        "s" 0 = AuthResult.ok "u1" "a@b.com" ∧
      profile initialState (Credential.token (Token.mk "u1" "a@b.com" 1 "s"))
        "s" 0 = ProfileResult.err 404 "User not found" := by
  refine ⟨rfl, rfl⟩

/-- C6 amended: the `authenticateToken` middleware of `resume.js`/`ai.js`
resolves every valid credential statelessly, returning exactly the identity
reference encoded in the token without consulting any store; the `/profile`
route, however, additionally looks the Identity up in `userStore` by the
token's email — returning it when present and failing with 404 when absent,
so that route's success depends on the store's contents. -/
theorem session_resolution_statefulness (t : Token) (secret : String)
    (now : Nat) (st : AuthState) (u : User)
    (h1 : t.secret = secret) (h2 : now < t.exp) :
    authenticateToken (Credential.token t) secret now =
        AuthResult.ok t.userId t.email ∧
      (mapGet st.userStore t.email = none →
        profile st (Credential.token t) secret now =
          ProfileResult.err 404 "User not found") ∧
      (mapGet st.userStore t.email = some u →
        profile st (Credential.token t) secret now = ProfileResult.ok u) := by
  have hv : jwtVerifyOk t secret now = true := by
    simp [jwtVerifyOk, h1, h2]
  refine ⟨by simp [authenticateToken, hv], ?_, ?_⟩
  · intro hn
    simp [profile, hv, hn]
  · intro hs
    simp [profile, hv, hs]

/-- C6 amended, witnessed at a concrete token and a one-user store. -/
theorem session_resolution_statefulness_witness :
    ((Token.mk "u1" "a@b.com" 9 "s").secret = "s" ∧
        (3 : Nat) < (Token.mk "u1" "a@b.com" 9 "s").exp) ∧
      (authenticateToken (Credential.token (Token.mk "u1" "a@b.com" 9 "s"))
          "s" 3 = AuthResult.ok "u1" "a@b.com" ∧
        (mapGet (AuthState.mk [] [("a@b.com", User.mk "u1" "a@b.com" "t0" [])]).userStore
            "a@b.com" = none →
          profile (AuthState.mk [] [("a@b.com", User.mk "u1" "a@b.com" "t0" [])])
            (Credential.token (Token.mk "u1" "a@b.com" 9 "s")) "s" 3 =
            ProfileResult.err 404 "User not found") ∧
        (mapGet (AuthState.mk [] [("a@b.com", User.mk "u1" "a@b.com" "t0" [])]).userStore
            "a@b.com" = some (User.mk "u1" "a@b.com" "t0" []) →
          profile (AuthState.mk [] [("a@b.com", User.mk "u1" "a@b.com" "t0" [])])
            (Credential.token (Token.mk "u1" "a@b.com" 9 "s")) "s" 3 =
            ProfileResult.ok (User.mk "u1" "a@b.com" "t0" []))) :=
  ⟨⟨rfl, by decide⟩,
    session_resolution_statefulness (Token.mk "u1" "a@b.com" 9 "s") "s" 3
      (AuthState.mk [] [("a@b.com", User.mk "u1" "a@b.com" "t0" [])])
      (User.mk "u1" "a@b.com" "t0" []) rfl (by decide)⟩

/-! ### C7 — range of generateOTP -/

/-- C7 counterexample: no outcome of `Math.random()` makes `generateOTP`
produce the value 0 (the code "000000"), so not every zero-padded 6-digit
string is a possible code — `Math.floor(100000 + r * 900000)` is always at
least 100000 and no zero-padding ever occurs. -/
theorem generate_otp_range_cex :
    ¬ ∃ r : ℚ, 0 ≤ r ∧ r < 1 ∧ generateOTPNum r = 0 := by
  rintro ⟨r, hr0, _, he⟩
  have h : ((100000 : ℤ) : ℚ) ≤ (100000 : ℚ) + r * 900000 := by
    push_cast
    nlinarith
  have h2 : (100000 : ℤ) ≤ generateOTPNum r := Int.le_floor.mpr h
  rw [he] at h2
  omega

/-- C7 amended: every code produced by `generateOTP` is the decimal string
of `Math.floor(100000 + Math.random() * 900000)`, which ranges exactly over
the integers 100000–999999 (each reachable for a suitable random draw): the
codes are always the six-digit strings "100000" through "999999", never
zero-padded, and the strings "000000" through "099999" are impossible. -/
theorem generate_otp_range (r : ℚ) (n : ℤ) (hr0 : 0 ≤ r) (hr1 : r < 1)
    (hn0 : 100000 ≤ n) (hn1 : n ≤ 999999) :
    (100000 ≤ generateOTPNum r ∧ generateOTPNum r ≤ 999999) ∧
      (0 ≤ ((n : ℚ) - 100000) / 900000 ∧ ((n : ℚ) - 100000) / 900000 < 1 ∧
        generateOTPNum (((n : ℚ) - 100000) / 900000) = n) := by
  have hcast0 : ((100000 : ℤ) : ℚ) ≤ (n : ℚ) := by exact_mod_cast hn0
  have hcast1 : (n : ℚ) ≤ ((999999 : ℤ) : ℚ) := by exact_mod_cast hn1
  refine ⟨⟨?_, ?_⟩, ?_, ?_, ?_⟩
  · refine Int.le_floor.mpr ?_
    push_cast
    nlinarith
  · have h : (100000 : ℚ) + r * 900000 < ((1000000 : ℤ) : ℚ) := by
      push_cast
      nlinarith
    have h2 : generateOTPNum r < 1000000 := Int.floor_lt.mpr h
    omega
  · push_cast at hcast0
    apply div_nonneg _ (by norm_num)
    linarith
  · push_cast at hcast1
    rw [div_lt_one (by norm_num)]
    linarith
  · unfold generateOTPNum
    have h : (100000 : ℚ) + ((n : ℚ) - 100000) / 900000 * 900000 = (n : ℚ) := by
      field_simp
    rw [h, Int.floor_intCast]

/-! ### C8 — at most one Identity per normalized email -/

theorem mem_keys_mapSet {α : Type} (m : List (String × α)) (k a : String)
    (v : α) (h : a ∈ (mapSet m k v).map Prod.fst) :
    a ∈ m.map Prod.fst ∨ a = k := by
  induction m with
  | nil => simpa [mapSet] using h
  | cons p rest ih =>
    by_cases hp : p.1 = k
    · simp only [mapSet, if_pos hp, List.map_cons, List.mem_cons] at h ⊢
      rcases h with h | h
      · exact Or.inr h
      · exact Or.inl (Or.inr h)
    · simp only [mapSet, if_neg hp, List.map_cons, List.mem_cons] at h ⊢
      rcases h with h | h
      · exact Or.inl (Or.inl h)
      · rcases ih h with h2 | h2
        · exact Or.inl (Or.inr h2)
        · exact Or.inr h2

theorem mapSet_keyNodup {α : Type} (m : List (String × α)) (k : String)
    (v : α) (h : keyNodup m) : keyNodup (mapSet m k v) := by
  induction m with
  | nil => simp [keyNodup, mapSet]
  | cons p rest ih =>
    rw [keyNodup, List.map_cons, List.nodup_cons] at h
    by_cases hp : p.1 = k
    · subst hp
      rw [keyNodup, mapSet, if_pos rfl, List.map_cons, List.nodup_cons]
      exact h
    · rw [keyNodup, mapSet, if_neg hp, List.map_cons, List.nodup_cons]
      refine ⟨?_, ih h.2⟩
      intro hmem
      rcases mem_keys_mapSet rest k p.1 v hmem with h2 | h2
      · exact h.1 h2
      · exact hp h2

theorem mapDelete_keyNodup {α : Type} (m : List (String × α)) (k : String)
    (h : keyNodup m) : keyNodup (mapDelete m k) := by
  exact ((List.filter_sublist m).map Prod.fst).nodup h

theorem keyNodup_filter_length {α : Type} (m : List (String × α))
    (e : String) (h : keyNodup m) :
    (m.filter (fun p => p.1 == e)).length ≤ 1 := by
  induction m with
  | nil => simp
  | cons p rest ih =>
    rw [keyNodup, List.map_cons, List.nodup_cons] at h
    by_cases hpe : p.1 = e
    · have hrest : rest.filter (fun p => p.1 == e) = [] := by
        rw [List.filter_eq_nil_iff]
        intro q hq hqe
        refine h.1 ?_
        rw [show p.1 = q.1 from hpe.trans (eq_of_beq hqe).symm]
        exact List.mem_map_of_mem Prod.fst hq
      simp [List.filter_cons, hpe, hrest]
    · have hb : (p.1 == e) = false := beq_eq_false_iff_ne.mpr hpe
      simpa [List.filter_cons, hb] using ih h.2

/-- The `userStore` of a `verify-otp` call is either the old one or the old
one with a single `Map.set` applied. -/
theorem verifyOtp_userStore_cases (st : AuthState) (otpId otp : String)
    (now : Nat) (fid cat sec : String) :
    (verifyOtp st otpId otp now fid cat sec).1.userStore = st.userStore ∨
      ∃ k v, (verifyOtp st otpId otp now fid cat sec).1.userStore =
        mapSet st.userStore k v := by
  unfold verifyOtp
  split
  · exact Or.inl rfl
  split
  · exact Or.inl rfl
  split
  · exact Or.inl rfl
  next storedData heq =>
    split
    · exact Or.inl rfl
    split
    · exact Or.inl rfl
    · cases hu : mapGet st.userStore storedData.email with
      | none =>
        refine Or.inr ⟨storedData.email,
          ⟨fid, storedData.email, cat, []⟩, ?_⟩
        simp [hu]
      | some u =>
        refine Or.inl ?_
        simp [hu]

theorem step_keyNodup (st : AuthState) (op : Op)
    (h : keyNodup st.userStore) : keyNodup (step st op).userStore := by
  cases op with
  | request e o i n s =>
    cases s <;> simpa [step, requestOtpRoute, requestOtp] using h
  | verify i o n f c sec =>
    rcases verifyOtp_userStore_cases st i o n f c sec with he | ⟨k, v, he⟩
    · rw [step, he]
      exact h
    · rw [step, he]
      exact mapSet_keyNodup st.userStore k v h

theorem run_keyNodup (ops : List Op) (st : AuthState)
    (h : keyNodup st.userStore) : keyNodup (run st ops).userStore := by
  induction ops generalizing st with
  | nil => exact h
  | cons op rest ih => exact ih (step st op) (step_keyNodup st op h)

/-- C8: after any sequence of operations from the empty state, at most one
`userStore` entry exists per (normalized) email key; and in the concrete
two-flow scenario — request and verify for `User@Example.com`, then request
and verify for `user@example.com` — the second verification resolves to the
identity created by the first (same id, not the fresh one drawn for the
second call), and exactly one Identity record is stored. -/
theorem identity_unique_per_email (ops : List Op) (e : String) :
    ((run initialState ops).userStore.filter
        (fun p => p.1 == e)).length ≤ 1 ∧
      (verifyOtp (run initialState
          [Op.request "User@Example.com" "111111" "h1" 0 true,
           Op.verify "h1" "111111" 0 "uid1" "t1" "s",
           Op.request "user@example.com" "222222" "h2" 0 true])
          "h2" "222222" 0 "uid2" "t2" "s").2 =
        VerifyResult.success
          (jwtSign "uid1" "user@example.com" "s" 604800000)
          (User.mk "uid1" "user@example.com" "t1" []) ∧
      (run initialState
          [Op.request "User@Example.com" "111111" "h1" 0 true,
           Op.verify "h1" "111111" 0 "uid1" "t1" "s",
           Op.request "user@example.com" "222222" "h2" 0 true,
           Op.verify "h2" "222222" 0 "uid2" "t2" "s"]).userStore =
        [("user@example.com", User.mk "uid1" "user@example.com" "t1" [])] := by
  refine ⟨?_, by decide, by decide⟩
  exact keyNodup_filter_length _ e
    (run_keyNodup ops initialState (by simp [initialState, keyNodup]))

/-- C7 amended, witnessed at the random draw 0 and the target value 100000. -/
theorem generate_otp_range_witness :
    ((0 : ℚ) ≤ 0 ∧ (0 : ℚ) < 1 ∧ (100000 : ℤ) ≤ 100000 ∧
        (100000 : ℤ) ≤ 999999) ∧
      ((100000 ≤ generateOTPNum 0 ∧ generateOTPNum 0 ≤ 999999) ∧
        (0 ≤ (((100000 : ℤ) : ℚ) - 100000) / 900000 ∧
          (((100000 : ℤ) : ℚ) - 100000) / 900000 < 1 ∧
          generateOTPNum ((((100000 : ℤ) : ℚ) - 100000) / 900000) = 100000)) :=
  ⟨by norm_num,
    generate_otp_range 0 100000 (by norm_num) (by norm_num) (by norm_num)
      (by norm_num)⟩

/-! ### C9/C10 — blob-name lemmas -/

theorem splitChar_ne_nil (sep : Char) (l : List Char) :
    splitChar sep l ≠ [] := by
  cases l with
  | nil => simp [splitChar]
  | cons c rest =>
    simp only [splitChar]
    cases h : splitChar sep rest with
    | nil => simp
    | cons hd tl => by_cases hc : c = sep <;> simp [hc]

theorem splitChar_not_mem (sep : Char) (a : List Char) (h : sep ∉ a) :
    splitChar sep a = [a] := by
  induction a with
  | nil => rfl
  | cons c rest ih =>
    have hc : ¬ c = sep := fun hh => h (hh ▸ List.mem_cons_self c rest)
    have hrest : sep ∉ rest := fun hh => h (List.mem_cons_of_mem c hh)
    simp only [splitChar, ih hrest]
    simp [hc]

theorem splitChar_append (sep : Char) (a b : List Char) (h : sep ∉ a) :
    splitChar sep (a ++ sep :: b) = a :: splitChar sep b := by
  induction a with
  | nil =>
    simp only [List.nil_append, splitChar]
    cases hb : splitChar sep b with
    | nil => exact absurd hb (splitChar_ne_nil sep b)
    | cons hd tl => simp
  | cons c rest ih =>
    have hc : ¬ c = sep := fun hh => h (hh ▸ List.mem_cons_self c rest)
    have hrest : sep ∉ rest := fun hh => h (List.mem_cons_of_mem c hh)
    simp only [List.cons_append, splitChar, List.append_eq]
    rw [ih hrest]
    simp [hc]

theorem joinChar_cons_cons (sep c : Char) (x : List Char)
    (l : List (List Char)) :
    joinChar sep ((c :: x) :: l) = c :: joinChar sep (x :: l) := by
  cases l with
  | nil => rfl
  | cons y t => rfl

theorem joinChar_splitChar (sep : Char) (s : List Char) :
    joinChar sep (splitChar sep s) = s := by
  induction s with
  | nil => rfl
  | cons c rest ih =>
    cases h : splitChar sep rest with
    | nil => exact absurd h (splitChar_ne_nil sep rest)
    | cons hd tl =>
      rw [h] at ih
      by_cases hc : c = sep
      · subst hc
        simp only [splitChar, h, if_pos rfl]
        cases tl with
        | nil => simpa [joinChar] using ih
        | cons t0 t' => simpa [joinChar] using ih
      · simp only [splitChar, h, if_neg hc]
        rw [joinChar_cons_cons, ih]

/-! ### C9 — upload/list round-trip -/

/-- C9: when the user id and resume id contain neither `/` nor `_` and the
original file name contains no `/`, the `GET /list` parse of the blob name
minted at upload recovers exactly the resume id as `id` and exactly the
original file name as `fileName` (even when the file name itself contains
underscores). -/
theorem upload_list_roundtrip (userId resumeId originalname : List Char)
    (hu1 : '/' ∉ userId) (hu2 : '_' ∉ userId)
    (hr1 : '/' ∉ resumeId) (hr2 : '_' ∉ resumeId)
    (ho : '/' ∉ originalname) :
    listItemId (uploadBlobName userId resumeId originalname) = resumeId ∧
      listItemFileName (uploadBlobName userId resumeId originalname) =
        originalname := by
  constructor
  · unfold listItemId uploadBlobName
    rw [splitChar_append '/' userId _ hu1]
    have hin : '/' ∉ resumeId ++ '_' :: originalname := by
      simp only [List.mem_append, List.mem_cons]
      rintro (h | h | h)
      · exact hr1 h
      · exact absurd h (by decide)
      · exact ho h
    rw [splitChar_not_mem '/' _ hin]
    simp only [List.getD_cons_succ, List.getD_cons_zero]
    rw [splitChar_append '_' resumeId originalname hr2]
    simp
  · unfold listItemFileName uploadBlobName
    have hsplit : userId ++ '/' :: (resumeId ++ '_' :: originalname) =
        (userId ++ '/' :: resumeId) ++ '_' :: originalname := by
      simp
    rw [hsplit]
    have hun : '_' ∉ userId ++ '/' :: resumeId := by
      simp only [List.mem_append, List.mem_cons]
      rintro (h | h | h)
      · exact hu2 h
      · exact absurd h (by decide)
      · exact hr2 h
    rw [splitChar_append '_' _ originalname hun]
    simpa using joinChar_splitChar '_' originalname

/-- C9, witnessed at UUID-style ids and a file name with an underscore. -/
theorem upload_list_roundtrip_witness :
    ('/' ∉ "u-1".data ∧ '_' ∉ "u-1".data ∧ '/' ∉ "r-7".data ∧
        '_' ∉ "r-7".data ∧ '/' ∉ "my_cv.pdf".data) ∧
      (listItemId (uploadBlobName "u-1".data "r-7".data "my_cv.pdf".data) =
          "r-7".data ∧
        listItemFileName (uploadBlobName "u-1".data "r-7".data "my_cv.pdf".data) =
          "my_cv.pdf".data) :=
  ⟨⟨by decide, by decide, by decide, by decide, by decide⟩,
    upload_list_roundtrip "u-1".data "r-7".data "my_cv.pdf".data
      (by decide) (by decide) (by decide) (by decide) (by decide)⟩

/-! ### C10 — substring matching in fetch/delete -/

/-- C10: the blob-selection loop of fetch/delete picks the first blob under
the user's prefix whose full name contains the requested id as a substring;
concretely, with two stored resumes of ids `ab12` and `ab`, requesting id
`ab` (a proper prefix of `ab12`) selects the `ab12` blob — a resume whose
actual id differs from the requested one — even though a blob with id
exactly `ab` exists. -/
theorem fetch_delete_substring_match :
    findTargetBlob
        [uploadBlobName "u1".data "ab12".data "a.pdf".data,
         uploadBlobName "u1".data "ab".data "b.pdf".data]
        "u1".data "ab".data =
      some (uploadBlobName "u1".data "ab12".data "a.pdf".data) ∧
      listItemId (uploadBlobName "u1".data "ab12".data "a.pdf".data) =
        "ab12".data ∧
      listItemId (uploadBlobName "u1".data "ab".data "b.pdf".data) =
        "ab".data ∧
      "ab12".data ≠ "ab".data := by
  refine ⟨by decide, by decide, by decide, by decide⟩

end Website
